import Mathlib

/-!
Verification of the camera-scanner orchestration layer of
`bedrock-web-optical-scanner` (`src/lib/camera-scanner.js`).

The file shallowly embeds the parts of the two `CameraScanner` classes that
the checked properties are about: session-entry validation, the single-scan
timeout race and minimum-duration floor, the fallback continuous-scan loop,
the interval wait with cancellation, the error-classification blocks of
`start()`, the file-batch loop of `scanFile()`, and the MRZ result
formatter.  Times are in milliseconds, modelled as naturals; asynchronous
settlement of the underlying scan is modelled by an explicit settlement
value (resolution or rejection together with the instant it occurs).
-/

namespace CameraScannerSpec

/-- A thrown JavaScript error: its `name` and `message` fields. -/
structure JsError where
  name : String
  message : String
deriving DecidableEq, Repr

/-- JS `String.prototype.includes`: substring containment. -/
def strIncludes (s sub : String) : Bool :=
  decide (sub.data <:+: s.data)

/-! ## MRZ result formatting (`_formatMrzResult`, second class, lines 3128-3163)

`_formatMrzResult` extracts `validation.overallStatus` and the list of
invalid fields and recomputes the boolean `valid`. -/

/-- The `isValid` computation of `_formatMrzResult` (lines 3149-3151):
`validation.overallStatus === 'complete' || (validation.overallStatus ===
'partial' && invalidFields.length === 0)`. -/
def mrzIsValid (overallStatus : String) (invalidFields : List String) : Bool :=
  overallStatus == "complete" ||
    (overallStatus == "partial" && invalidFields.length == 0)

/-- The predicate exactly as the spec words it: `overallStatus == complete OR
(overallStatus == partial AND no invalid fields)`. -/
def specMrzValid (overallStatus : String) (invalidFields : List String) : Bool :=
  overallStatus == "complete" ||
    (overallStatus == "partial" && invalidFields.isEmpty)

/-! ## Session-entry validation (`scanOnce` lines 657-665, second-class `scan`
lines 2643-2653)

Both methods synchronously validate the session before any asynchronous
work: the camera must be started and no other scan may be in flight.  The
mutable session fields consulted are `_stream`, `_videoElement` and
`_isScanning`. -/

/-- The mutable session state of a `CameraScanner` instance: the camera
stream handle, the video element handle and the `_isScanning` flag.  Handles
are opaque naturals; `none` is JS `null`. -/
structure CamState where
  stream : Option Nat
  video : Option Nat
  isScanning : Bool
deriving DecidableEq, Repr

/-- Result of the synchronous entry checks of a scan method: either a thrown
error (session untouched) or the session with `_isScanning` set. -/
def scanOnceEntry (s : CamState) : (Option JsError) × CamState :=
  if s.video.isNone || s.stream.isNone then
    (some ⟨"Error", "Camera not started. Call start() first."⟩, s)
  else if s.isScanning then
    (some ⟨"Error",
      "Scan already in progress." ++ "Wait for current scan to complete."⟩, s)
  else
    (none, { s with isScanning := true })

/-- Entry checks of the second class's `scan()` (lines 2643-2653); the only
difference is the exact message text. -/
def scanEntry2 (s : CamState) : (Option JsError) × CamState :=
  if s.video.isNone || s.stream.isNone then
    (some ⟨"Error", "Camera not started. Call start() first."⟩, s)
  else if s.isScanning then
    (some ⟨"Error",
      "Scan already in progress. Wait for current scan to complete."⟩, s)
  else
    (none, { s with isScanning := true })

/-! ## Single scan with timeout race and minimum-duration floor
(`scanOnce`, lines 650-872; second-class `scan`, lines 2635-2795)

Both methods race the underlying `OpticalScanner.scan` promise against an
optional timeout timer, mark `scanSucceeded` as soon as a non-empty result
list arrives, and then enforce a minimum scan duration before returning.
The asynchronous settlement of the underlying scan is a parameter: the
instant (ms after `scanStartTime`) at which it resolves or rejects. -/

/-- A raw detection produced by the underlying optical scanner. -/
structure RawResult where
  format : String
deriving DecidableEq, Repr

/-- Settlement of the underlying scan promise: at instant `at_` it either
resolves with a (possibly empty) result list or rejects with an error. -/
inductive ScanSettle where
  | resolved (at_ : Nat) (results : List RawResult)
  | rejected (at_ : Nat) (e : JsError)
deriving DecidableEq, Repr

/-- Caller-visible outcome of a single scan call: the `success` flag of the
returned object, the instant the call resolves (ms after scan start), and
the `code` field when present. -/
structure ScanReturn where
  success : Bool
  resolveAt : Nat
  code : Option String
deriving DecidableEq, Repr

/-- Instant (ms after scan start) at which a settlement occurs. -/
def ScanSettle.settleAt : ScanSettle → Nat
  | .resolved a _ => a
  | .rejected a _ => a

/-- The `Promise.race` of the scan promise against the timeout timer
(`scanOnce` lines 761-773, `scan` lines 2684-2701): the timer is installed
only when `timeoutMs > 0` and wins exactly when it fires strictly before the
scan settles, rejecting with `SCAN_TIMEOUT`. -/
def raceWithTimeout (timeoutMs : Nat) (u : ScanSettle) : ScanSettle :=
  if 0 < timeoutMs ∧ timeoutMs < u.settleAt then
    .rejected timeoutMs ⟨"Error", "SCAN_TIMEOUT"⟩
  else u

/-- The standard scanning path of `scanOnce` (lines 755-867): race against
the timeout, mark success on a non-empty result list (line 776), enforce the
minimum scan time unless the requested formats include `mrz`
(`needsMinTime`, lines 793-803) -- this wait runs before the
`scanSucceeded` check, so it also delays the no-detections return -- and
map rejections in the catch block (lines 823-867, no floor there). -/
def scanOnceRun (finalFormats : List String) (timeoutMs minScanTime : Nat)
    (underlying : ScanSettle) : ScanReturn :=
  match raceWithTimeout timeoutMs underlying with
  | .resolved t rs =>
      let scanSucceeded := decide (0 < rs.length)
      let needsMinTime :=
        !(finalFormats.contains "mrz") && decide (0 < minScanTime)
      let resolveAt :=
        if needsMinTime && decide (t < minScanTime) then minScanTime else t
      { success := scanSucceeded, resolveAt := resolveAt, code := none }
  | .rejected t e =>
      if e.message == "SCAN_TIMEOUT" then
        { success := false, resolveAt := t, code := some "SCAN_TIMEOUT" }
      else
        { success := false, resolveAt := t, code := some "SCAN_ERROR" }

/-- `_getMinScanTime` of the second class (lines 2146-2149): the minimum
scan time is skipped for MRZ sessions. -/
def getMinScanTime2 (sessionFormats : List String) : Nat :=
  if sessionFormats.contains "mrz" then 0 else 1500

/-- The second class's `scan` (lines 2635-2795): same race, with the floor
applied whenever `minScanTime > 0` (lines 2722-2731) -- the MRZ exemption is
folded into `_getMinScanTime`. The no-results return carries code
`NO_RESULTS` (line 2746). -/
def scanRun2 (sessionFormats : List String) (timeoutMs : Nat)
    (underlying : ScanSettle) : ScanReturn :=
  let minScanTime := getMinScanTime2 sessionFormats
  match raceWithTimeout timeoutMs underlying with
  | .resolved t rs =>
      let scanSucceeded := decide (0 < rs.length)
      let resolveAt :=
        if 0 < minScanTime ∧ t < minScanTime then minScanTime else t
      { success := scanSucceeded, resolveAt := resolveAt,
        code := if scanSucceeded then none else some "NO_RESULTS" }
  | .rejected t e =>
      if e.message == "SCAN_TIMEOUT" then
        { success := false, resolveAt := t, code := some "SCAN_TIMEOUT" }
      else
        { success := false, resolveAt := t, code := some "SCAN_ERROR" }

/-- When the scan settles no later than the timeout (or there is none), the
race is won by the scan. -/
theorem raceWithTimeout_skip {timeoutMs : Nat} {u : ScanSettle}
    (hr : ¬(0 < timeoutMs ∧ timeoutMs < u.settleAt)) :
    raceWithTimeout timeoutMs u = u := by
  unfold raceWithTimeout
  exact if_neg hr

/-- Shape of `scanOnceRun` on a resolving scan that beats the timeout. -/
theorem scanOnceRun_resolved (finalFormats : List String)
    (timeoutMs minScanTime t : Nat) (rs : List RawResult)
    (hr : ¬(0 < timeoutMs ∧ timeoutMs < t)) :
    scanOnceRun finalFormats timeoutMs minScanTime (.resolved t rs) =
      { success := decide (0 < rs.length),
        resolveAt :=
          if (!(finalFormats.contains "mrz") && decide (0 < minScanTime)) &&
              decide (t < minScanTime) then minScanTime else t,
        code := none } := by
  unfold scanOnceRun
  rw [raceWithTimeout_skip hr]

/-- Shape of `scanOnceRun` on a rejecting scan that beats the timeout. -/
theorem scanOnceRun_rejected (finalFormats : List String)
    (timeoutMs minScanTime t : Nat) (e : JsError)
    (hr : ¬(0 < timeoutMs ∧ timeoutMs < t)) :
    scanOnceRun finalFormats timeoutMs minScanTime (.rejected t e) =
      { success := false, resolveAt := t,
        code := some (if e.message == "SCAN_TIMEOUT" then "SCAN_TIMEOUT"
          else "SCAN_ERROR") } := by
  unfold scanOnceRun
  rw [raceWithTimeout_skip hr]
  cases h : e.message == "SCAN_TIMEOUT" <;> simp [h]

/-- Shape of `scanRun2` on a resolving scan that beats the timeout. -/
theorem scanRun2_resolved (sessionFormats : List String)
    (timeoutMs t : Nat) (rs : List RawResult)
    (hr : ¬(0 < timeoutMs ∧ timeoutMs < t)) :
    scanRun2 sessionFormats timeoutMs (.resolved t rs) =
      { success := decide (0 < rs.length),
        resolveAt :=
          if 0 < getMinScanTime2 sessionFormats ∧
              t < getMinScanTime2 sessionFormats
          then getMinScanTime2 sessionFormats else t,
        code := if decide (0 < rs.length) then none
          else some "NO_RESULTS" } := by
  unfold scanRun2
  rw [raceWithTimeout_skip hr]

/-! ## Fallback continuous-scanning loop (`scanContinuous`, lines 1013-1111)

The fallback loop increments `attempt`, checks the optional `maxAttempts`
bound, performs one scan attempt, returns on a non-empty result and
otherwise waits out the interval and retries.  `scanRes k` gives the result
list of the k-th attempt of the underlying scanner. -/

/-- Outcome of the fallback loop together with the number of individual
scan attempts it performed before returning. -/
structure ContReturn where
  success : Bool
  code : Option String
  attempts : Nat
  scansPerformed : Nat
deriving DecidableEq, Repr

/-- The fallback loop from iteration `attempt` on, with `maxAttempts` set
(a set `maxAttempts` is a positive number; `0`/`null` is falsy and means
unlimited, not modelled here).  Lines 1013-1028: `attempt++`, then the
bound check returning the `MAX_ATTEMPTS_REACHED` outcome with
`attempts: attempt - 1`; lines 1046-1062: one scan attempt, returning on a
non-empty result list. -/
def contLoopFrom (scanRes : Nat → List RawResult) (maxAttempts : Nat)
    (attempt scans : Nat) : ContReturn :=
  if attempt + 1 > maxAttempts then
    { success := false, code := some "MAX_ATTEMPTS_REACHED",
      attempts := attempt + 1 - 1, scansPerformed := scans }
  else if 0 < (scanRes (attempt + 1)).length then
    { success := true, code := none, attempts := attempt + 1,
      scansPerformed := scans + 1 }
  else
    contLoopFrom scanRes maxAttempts (attempt + 1) (scans + 1)
termination_by maxAttempts + 1 - attempt
decreasing_by omega

/-- The whole fallback loop: `attempt` starts at `0` (line 913), no scans
performed yet. -/
def scanContinuousFallback (scanRes : Nat → List RawResult)
    (maxAttempts : Nat) : ContReturn :=
  contLoopFrom scanRes maxAttempts 0 0

/-! ## The per-attempt reduced timeout of the fallback loop (line 1044)

The loop computes `individualTimeout = Math.min(interval * 0.8, 5000)` but
the options it passes to the underlying scan (lines 1046-1053) carry no
timeout, and no race is installed around the attempt. -/

/-- The options object passed to `this._opticalScanner.scan` for one
attempt of the fallback loop: `formats`, `mode`, `signal` and
`pluginOptions` (lines 1047-1053).  `timeoutMs` records any per-attempt
timeout among them. -/
structure AttemptScanOptions where
  formats : List String
  mode : String
  hasSignal : Bool
  timeoutMs : Option Nat
deriving DecidableEq, Repr

/-- Line 1044: `Math.min(interval * 0.8, 5000)`, in exact rational
arithmetic. -/
def individualTimeout (interval : ℚ) : ℚ :=
  min (interval * 0.8) 5000

/-- The options actually passed for one attempt (lines 1046-1053): the
computed `individualTimeout` is not among them. -/
def continuousAttemptOptions (formats : List String) (mode : String)
    (hasSignal : Bool) : AttemptScanOptions :=
  { formats := formats, mode := mode, hasSignal := hasSignal,
    timeoutMs := none }

/-- Because the loop installs no race around the attempt, the attempt
settles exactly when the underlying scan settles. -/
def continuousAttemptDuration (scanSettleAt : Nat) : Nat :=
  scanSettleAt

/-! ## Interval wait with cancellation (`scanContinuous`, lines 1084-1110)

Between attempts the loop awaits a promise that resolves when a timer of
`interval` ms fires; an abort signalled before the timer fires (or already
signalled at entry, lines 1096-1100) clears the timer and rejects with
'Scan cancelled during interval wait'. -/

/-- Settlement of the interval-wait promise: the instant it settles
(ms into the wait), whether it rejected, the rejection message, and whether
the pending interval timer was cleared. -/
structure WaitResult where
  settleAt : Nat
  rejected : Bool
  errMessage : String
  timerCleared : Bool
deriving DecidableEq, Repr

/-- The interval wait.  `abortAt = some t` means the signal aborts `t` ms
into the wait (`t = 0` for a signal already aborted at entry); `none` means
it never aborts.  An abort strictly before the timer fires clears the
timer and rejects at that instant; otherwise the timer resolves the wait at
`interval`. -/
def intervalWait (interval : Nat) : Option Nat → WaitResult
  | none =>
      { settleAt := interval, rejected := false, errMessage := "",
        timerCleared := false }
  | some t =>
      if t < interval then
        { settleAt := t, rejected := true,
          errMessage := "Scan cancelled during interval wait",
          timerCleared := true }
      else
        { settleAt := interval, rejected := false, errMessage := "",
          timerCleared := false }

/-! ## The catch blocks (error handling with abort logic)

`scanOnce` lines 823-867, `scanContinuous` lines 1114-1164 and `scanFile`
lines 1601-1648 all first treat an `AbortError` arriving after a captured
success as benign, returning a success outcome. -/

/-- Outcome built by a catch block: the returned `success` and `cancelled`
flags and the `code` field when present. -/
structure CatchReturn where
  success : Bool
  cancelled : Bool
  code : Option String
deriving DecidableEq, Repr

/-- The catch block of `scanOnce` (lines 823-867): benign abort after
success, then the `SCAN_TIMEOUT` branch, then the generic `SCAN_ERROR`
branch. -/
def scanOnceCatch (e : JsError) (scanSucceeded : Bool) : CatchReturn :=
  if e.name == "AbortError" && scanSucceeded then
    { success := true, cancelled := false, code := none }
  else if e.message == "SCAN_TIMEOUT" then
    { success := false, cancelled := false, code := some "SCAN_TIMEOUT" }
  else
    { success := false, cancelled := false, code := some "SCAN_ERROR" }

/-- The catch block of `scanContinuous` (lines 1114-1164): benign abort
after success; an `AbortError` or an error whose message contains
'cancelled' yields the cancelled outcome; otherwise
`CONTINUOUS_SCAN_ERROR`. -/
def continuousCatch (e : JsError) (scanSucceeded : Bool) : CatchReturn :=
  if e.name == "AbortError" && scanSucceeded then
    { success := true, cancelled := false, code := none }
  else if e.name == "AbortError" || strIncludes e.message "cancelled" then
    { success := false, cancelled := true, code := none }
  else
    { success := false, cancelled := false,
      code := some "CONTINUOUS_SCAN_ERROR" }

/-- The catch block of `scanFile` (lines 1601-1648): benign abort after
success; an `AbortError` or a 'cancelled' message yields the cancelled
outcome; otherwise `FILE_SCAN_ERROR`. -/
def fileCatch (e : JsError) (scanSucceeded : Bool) : CatchReturn :=
  if e.name == "AbortError" && scanSucceeded then
    { success := true, cancelled := false, code := none }
  else if e.name == "AbortError" || strIncludes e.message "cancelled" then
    { success := false, cancelled := true, code := none }
  else
    { success := false, cancelled := false, code := some "FILE_SCAN_ERROR" }

/-! ## Camera start (`start`, first class lines 386-631; second class lines
2169-2275)

`start(container)` validates the container synchronously -- throwing on a
missing or non-element container, before the try block -- returns an
'already active' success when stream and video are both present, and
otherwise acquires the camera; any failure inside the try block calls
`stop()` and returns a structured failure with a classified code. -/

/-- The `container` argument of `start`: JS `null`/`undefined`, a value
that is not an `HTMLElement`, or a valid DOM element. -/
inductive ContainerArg where
  | nullC
  | notElement
  | validElement
deriving DecidableEq, Repr

/-- The caller-visible object returned by `start`. -/
structure StartReturn where
  success : Bool
  scanType : String
  message : Option String
  code : Option String
deriving DecidableEq, Repr

/-- Full effect of one `start` invocation: the error it throws (if any),
the object it returns otherwise, the session state afterwards, whether the
container contents were cleared, and whether `stop()` was called. -/
structure StartOutcome where
  thrown : Option JsError
  ret : Option StartReturn
  state : CamState
  containerCleared : Bool
  stopCalled : Bool
deriving DecidableEq, Repr

/-- `stop()` (lines 1215-1232): clears the scanning flag, releases the
stream and detaches the video element. -/
def stopRun (_s : CamState) : CamState :=
  { stream := none, video := none, isScanning := false }

/-- Error classification of the first class's `start` catch block (lines
605-621). -/
def classifyStartError (e : JsError) : String :=
  if e.name == "NotAllowedError" then "CAMERA_PERMISSION_DENIED"
  else if e.name == "NotFoundError" then "NO_CAMERA_FOUND"
  else if strIncludes e.message "timeout" then "CAMERA_TIMEOUT"
  else if strIncludes e.message "Container" then "INVALID_CONTAINER"
  else "CAMERA_START_ERROR"

/-- Error classification of the second class's `start` catch block (lines
2252-2265): no `Container` branch. -/
def classifyStartError2 (e : JsError) : String :=
  if e.name == "NotAllowedError" then "CAMERA_PERMISSION_DENIED"
  else if e.name == "NotFoundError" then "NO_CAMERA_FOUND"
  else if strIncludes e.message "timeout" then "CAMERA_TIMEOUT"
  else "CAMERA_START_ERROR"

/-- The first class's `start(container)` (lines 386-631).  Container
validation (lines 392-400) throws synchronously before the try block: no
cleanup runs and no structured failure object is produced.  With both
stream and video already present the existing setup is returned and
nothing else happens (lines 402-411).  Otherwise `acq` is the settlement
of the camera-stream and video-element acquisition: on success the handles
are installed and the container is cleared and repopulated (lines
413-596); on failure `stop()` runs and a structured failure with a
classified code is returned (lines 598-630) -- acquisition fails before
the container is touched. -/
def startRun (scanType : String) (st : CamState)
    (acq : Except JsError (Nat × Nat)) : ContainerArg → StartOutcome
  | .nullC =>
      { thrown := some ⟨"Error",
          "Container element is required for CameraScanner.start()"⟩,
        ret := none, state := st, containerCleared := false,
        stopCalled := false }
  | .notElement =>
      { thrown := some ⟨"Error", "Container must be a valid DOM element"⟩,
        ret := none, state := st, containerCleared := false,
        stopCalled := false }
  | .validElement =>
      if st.stream.isSome && st.video.isSome then
        { thrown := none,
          ret := some
            { success := true, scanType := scanType,
              message := some "Camera already active", code := none },
          state := st, containerCleared := false, stopCalled := false }
      else
        match acq with
        | .ok (sh, vh) =>
            { thrown := none,
              ret := some
                { success := true, scanType := scanType,
                  message := some ("Camera ready for " ++ scanType ++
                    " scanning"),
                  code := none },
              state := { st with stream := some sh, video := some vh },
              containerCleared := true, stopCalled := false }
        | .error e =>
            { thrown := none,
              ret := some
                { success := false, scanType := scanType,
                  message := none, code := some (classifyStartError e) },
              state := stopRun st, containerCleared := false,
              stopCalled := true }

/-- The second class's `start(container, options)` (lines 2169-2275): the
same shape; both invalid-container cases throw the same message (lines
2175-2179) and the catch block uses `classifyStartError2`. -/
def start2Run (scanType : String) (st : CamState)
    (acq : Except JsError (Nat × Nat)) : ContainerArg → StartOutcome
  | .nullC =>
      { thrown := some ⟨"Error", "Valid container element is required"⟩,
        ret := none, state := st, containerCleared := false,
        stopCalled := false }
  | .notElement =>
      { thrown := some ⟨"Error", "Valid container element is required"⟩,
        ret := none, state := st, containerCleared := false,
        stopCalled := false }
  | .validElement =>
      if st.stream.isSome && st.video.isSome then
        { thrown := none,
          ret := some
            { success := true, scanType := scanType,
              message := some "Camera already active", code := none },
          state := st, containerCleared := false, stopCalled := false }
      else
        match acq with
        | .ok (sh, vh) =>
            { thrown := none,
              ret := some
                { success := true, scanType := scanType,
                  message := none, code := none },
              state := { st with stream := some sh, video := some vh },
              containerCleared := true, stopCalled := false }
        | .error e =>
            { thrown := none,
              ret := some
                { success := false, scanType := scanType,
                  message := none, code := some (classifyStartError2 e) },
              state := stopRun st, containerCleared := false,
              stopCalled := true }

/-! ## File-batch scanning (`scanFile`, lines 1305-1649)

`scanFile` validates the file list upfront -- an empty list or any file of
an unsupported MIME type makes the whole call throw before any file is
processed -- and then, in `processAll` mode, scans each file in order with
per-file failure isolation, compiling a summary at the end. -/

/-- A JS `File`: its name, size and MIME type. -/
structure JsFile where
  name : String
  size : Nat
  type : String
deriving DecidableEq, Repr

/-- The accepted MIME types (line 1330). -/
def supportedTypes : List String :=
  ["image/jpeg", "image/jpg", "image/png", "image/gif", "image/bmp",
   "image/webp"]

/-- JS `String.prototype.split` on one character, for `type.split('/')`. -/
def splitOnChar (c : Char) : List Char → List (List Char)
  | [] => [[]]
  | x :: xs =>
      let r := splitOnChar c xs
      if x = c then [] :: r
      else (x :: r.headD []) :: r.tail

/-- The subtype used for matching: `type.split('/')[1]` (line 1332);
out-of-range indexing gives the empty string. -/
def mimeSubtype (t : String) : String :=
  ⟨(splitOnChar '/' t.data).getD 1 []⟩

/-- JS `String.prototype.toLowerCase` (ASCII, as the MIME strings here
are). -/
def jsToLower (s : String) : String :=
  ⟨s.data.map Char.toLower⟩

/-- Whether one file passes the MIME prefilter (lines 1331-1333): some
supported type's subtype occurs in the lower-cased file type. -/
def fileTypeSupported (f : JsFile) : Bool :=
  supportedTypes.any fun t => strIncludes (jsToLower f.type) (mimeSubtype t)

/-- The files rejected by the prefilter (lines 1331-1333). -/
def invalidFiles (files : List JsFile) : List JsFile :=
  files.filter fun f => !(fileTypeSupported f)

/-- Settlement of one file's scan (with its own timeout race already
folded in): it resolves with a result list or rejects. -/
inductive FileSettle where
  | resolved (rs : List RawResult)
  | rejected (e : JsError)
deriving DecidableEq, Repr

/-- Whether a settlement is a success: a non-empty result list (line
1474). -/
def FileSettle.succeeds : FileSettle → Bool
  | .resolved rs => decide (0 < rs.length)
  | .rejected _ => false

/-- One per-file entry pushed to `allResults` in processAll mode. -/
structure FileEntry where
  success : Bool
  fileName : String
  code : Option String
deriving DecidableEq, Repr

/-- One iteration of the processAll file loop (lines 1411-1560): a
successful scan pushes an enriched success entry (lines 1485-1499); an
empty result pushes a no-detections entry (lines 1510-1523); a non-abort
error pushes an error entry whose code distinguishes the per-file timeout
(lines 1534-1552).  The original file name is preserved in every case. -/
def processOne (f : JsFile) (settle : FileSettle) : FileEntry :=
  match settle with
  | .resolved rs =>
      if 0 < rs.length then
        { success := true, fileName := f.name, code := none }
      else
        { success := false, fileName := f.name, code := none }
  | .rejected e =>
      { success := false, fileName := f.name,
        code := some (if e.message == "FILE_SCAN_TIMEOUT"
          then "FILE_SCAN_TIMEOUT" else "FILE_SCAN_ERROR") }

/-- The batch summary of processAll mode (lines 1578-1584). -/
structure BatchSummary where
  totalFiles : Nat
  processedFiles : Nat
  successfulFiles : Nat
  failedFiles : Nat
deriving DecidableEq, Repr

/-- The object returned by `scanFile` in processAll mode (lines
1571-1585). -/
structure BatchReturn where
  success : Bool
  results : List FileEntry
  summary : BatchSummary
deriving DecidableEq, Repr

/-- `scanFile(files, treating processAll as true)` with no abort signalled:
the upfront validation throws on an empty list (lines 1325-1327) and on any
unsupported file type (lines 1329-1337); otherwise every file is processed
in order and the summary is compiled, `successfulFiles` counting the
entries whose `success` is not `false` (line 1573) and `failedFiles` the
rest (line 1582). -/
def scanFileProcessAll (files : List JsFile)
    (settle : JsFile → FileSettle) : Except JsError BatchReturn :=
  if files.length = 0 then
    .error ⟨"Error", "No files provided for scanning"⟩
  else if 0 < (invalidFiles files).length then
    .error ⟨"Error", "Unsupported file types: " ++
      String.intercalate ", " ((invalidFiles files).map JsFile.name)⟩
  else
    .ok
      { success := decide (0 <
          ((files.map fun f => processOne f (settle f)).filter
            fun r => r.success).length),
        results := files.map fun f => processOne f (settle f),
        summary :=
          { totalFiles := files.length,
            processedFiles := files.length,
            successfulFiles :=
              ((files.map fun f => processOne f (settle f)).filter
                fun r => r.success).length,
            failedFiles :=
              (files.map fun f => processOne f (settle f)).length -
                ((files.map fun f => processOne f (settle f)).filter
                  fun r => r.success).length } }

/-- A concrete three-file batch, all of supported MIME types, used as the
running example for the batch summary. -/
def exampleBatch : List JsFile :=
  [⟨"a.png", 10, "image/png"⟩, ⟨"b.jpg", 20, "image/jpeg"⟩,
   ⟨"c.gif", 30, "image/gif"⟩]

/-- A concrete per-file settlement for `exampleBatch`: the first file scans
successfully, the second yields no detections, the third times out. -/
def exampleSettle : JsFile → FileSettle := fun f =>
  if f.name == "a.png" then .resolved [⟨"qr_code"⟩]
  else if f.name == "b.jpg" then .resolved []
  else .rejected ⟨"Error", "FILE_SCAN_TIMEOUT"⟩

end CameraScannerSpec

namespace CameraScannerSpec

/-- C3: for every formatted MRZ result, the boolean `valid` computed by
`_formatMrzResult` equals exactly `overallStatus == 'complete' OR
(overallStatus == 'partial' AND the invalid-field list is empty)`, for all
status strings and all invalid-field lists. -/
theorem mrz_valid_predicate_exact (overallStatus : String)
    (invalidFields : List String) :
    mrzIsValid overallStatus invalidFields =
      specMrzValid overallStatus invalidFields := by
  cases invalidFields <;> simp [mrzIsValid, specMrzValid]

/-- C2: while a prior scan on the same session is unresolved
(`_isScanning = true`), both `scanOnce` and the second class's `scan` fail
at entry with a "Scan already in progress" error, and the session state --
hence the in-flight call -- is left untouched; nothing is queued. -/
theorem scan_reentrancy_fails_fast (s : CamState)
    (hv : s.video.isSome) (hs : s.stream.isSome) (hb : s.isScanning = true) :
    (∃ e, (scanOnceEntry s).1 = some e ∧
        strIncludes e.message "Scan already in progress" = true) ∧
      (scanOnceEntry s).2 = s ∧
      (∃ e, (scanEntry2 s).1 = some e ∧
        strIncludes e.message "Scan already in progress" = true) ∧
      (scanEntry2 s).2 = s := by
  obtain ⟨st, vd, bsc⟩ := s
  cases st with
  | none => simp at hs
  | some a =>
    cases vd with
    | none => simp at hv
    | some b =>
      cases hb
      exact ⟨⟨_, rfl, by decide⟩, rfl, ⟨_, rfl, by decide⟩, rfl⟩

/-- Witness for C2 at a concrete in-flight session. -/
theorem scan_reentrancy_fails_fast_witness :
    (∃ e, (scanOnceEntry ⟨some 1, some 2, true⟩).1 = some e ∧
        strIncludes e.message "Scan already in progress" = true) ∧
      (scanOnceEntry ⟨some 1, some 2, true⟩).2 = ⟨some 1, some 2, true⟩ ∧
      (∃ e, (scanEntry2 ⟨some 1, some 2, true⟩).1 = some e ∧
        strIncludes e.message "Scan already in progress" = true) ∧
      (scanEntry2 ⟨some 1, some 2, true⟩).2 = ⟨some 1, some 2, true⟩ :=
  scan_reentrancy_fails_fast ⟨some 1, some 2, true⟩ (by decide) (by decide)
    (by decide)

/-- C1, counterexample: the claim states the floor is enforced only on
success, so a scan that finds no detections is not held to the floor.  On
the code, a `scanOnce` over `qr_code` (timeout 10000ms, floor 1500ms) whose
underlying scan resolves with zero detections after 5ms is nevertheless
held to the 1500ms floor: it resolves at 1500ms, not 5ms. -/
theorem scanOnce_empty_result_held_to_floor :
    (scanOnceRun ["qr_code"] 10000 1500 (.resolved 5 [])).success = false ∧
      (scanOnceRun ["qr_code"] 10000 1500 (.resolved 5 [])).resolveAt = 1500 ∧
      (scanOnceRun ["qr_code"] 10000 1500 (.resolved 5 [])).resolveAt ≠ 5 := by
  decide

/-- C1 as amended: when the underlying scan settles before any timeout, (i)
a non-MRZ scan with a positive floor whose underlying scan resolves --- with
or without detections --- before the floor elapses resolves exactly at the
floor; (ii) a scan whose formats include `mrz` has no floor and resolves the
instant the underlying scan resolves; (iii) a scan that fails (the race
rejects) is not held to the floor and resolves unsuccessfully at the instant
of rejection.  The same holds for the second class's `scan` with its
session-format floor. -/
theorem scan_minimum_duration_floor (formats : List String)
    (timeoutMs minScanTime t : Nat) (rs : List RawResult) (e : JsError)
    (hrace : timeoutMs = 0 ∨ t ≤ timeoutMs) :
    (formats.contains "mrz" = false → 0 < minScanTime → t < minScanTime →
      (scanOnceRun formats timeoutMs minScanTime
        (.resolved t rs)).resolveAt = minScanTime) ∧
    (formats.contains "mrz" = true →
      (scanOnceRun formats timeoutMs minScanTime
        (.resolved t rs)).resolveAt = t) ∧
    ((scanOnceRun formats timeoutMs minScanTime
        (.rejected t e)).resolveAt = t ∧
      (scanOnceRun formats timeoutMs minScanTime
        (.rejected t e)).success = false) ∧
    (formats.contains "mrz" = false → t < 1500 →
      (scanRun2 formats timeoutMs (.resolved t rs)).resolveAt = 1500) ∧
    (formats.contains "mrz" = true →
      (scanRun2 formats timeoutMs (.resolved t rs)).resolveAt = t) := by
  have hr : ¬(0 < timeoutMs ∧ timeoutMs < t) := by
    intro hc
    rcases hrace with h | h <;> omega
  refine ⟨?_, ?_, ?_, ?_, ?_⟩
  · intro hmrz hpos hlt
    rw [scanOnceRun_resolved _ _ _ _ _ hr]
    show (if (!(formats.contains "mrz") && decide (0 < minScanTime)) &&
        decide (t < minScanTime) then minScanTime else t) = minScanTime
    rw [hmrz]
    simp [hpos, hlt]
  · intro hmrz
    rw [scanOnceRun_resolved _ _ _ _ _ hr]
    show (if (!(formats.contains "mrz") && decide (0 < minScanTime)) &&
        decide (t < minScanTime) then minScanTime else t) = t
    rw [hmrz]
    simp
  · rw [scanOnceRun_rejected _ _ _ _ _ hr]
    exact ⟨rfl, rfl⟩
  · intro hmrz hlt
    have hg : getMinScanTime2 formats = 1500 := by
      unfold getMinScanTime2
      rw [hmrz]
      simp
    rw [scanRun2_resolved _ _ _ _ hr]
    show (if 0 < getMinScanTime2 formats ∧ t < getMinScanTime2 formats
        then getMinScanTime2 formats else t) = 1500
    rw [hg, if_pos ⟨by norm_num, hlt⟩]
  · intro hmrz
    have hg : getMinScanTime2 formats = 0 := by
      unfold getMinScanTime2
      rw [hmrz]
      simp
    rw [scanRun2_resolved _ _ _ _ hr]
    show (if 0 < getMinScanTime2 formats ∧ t < getMinScanTime2 formats
        then getMinScanTime2 formats else t) = t
    rw [hg]
    simp

/-- Witness for C1's amended theorem at a concrete early-resolving scan. -/
theorem scan_minimum_duration_floor_witness :
    ((["qr_code"] : List String).contains "mrz" = false → 0 < 1500 →
        5 < 1500 →
      (scanOnceRun ["qr_code"] 10000 1500
        (.resolved 5 [⟨"qr_code"⟩])).resolveAt = 1500) ∧
    ((["qr_code"] : List String).contains "mrz" = true →
      (scanOnceRun ["qr_code"] 10000 1500
        (.resolved 5 [⟨"qr_code"⟩])).resolveAt = 5) ∧
    ((scanOnceRun ["qr_code"] 10000 1500
        (.rejected 5 ⟨"Error", "boom"⟩)).resolveAt = 5 ∧
      (scanOnceRun ["qr_code"] 10000 1500
        (.rejected 5 ⟨"Error", "boom"⟩)).success = false) ∧
    ((["qr_code"] : List String).contains "mrz" = false → 5 < 1500 →
      (scanRun2 ["qr_code"] 10000 (.resolved 5 [⟨"qr_code"⟩])).resolveAt =
        1500) ∧
    ((["qr_code"] : List String).contains "mrz" = true →
      (scanRun2 ["qr_code"] 10000 (.resolved 5 [⟨"qr_code"⟩])).resolveAt =
        5) :=
  scan_minimum_duration_floor ["qr_code"] 10000 1500 5 [⟨"qr_code"⟩]
    ⟨"Error", "boom"⟩ (Or.inr (by decide))

/-- Unfolding lemma for the fallback loop on a scanner that never yields a
detection: starting from any `attempt ≤ maxAttempts`, the loop performs the
remaining `maxAttempts - attempt` scan attempts and returns the
`MAX_ATTEMPTS_REACHED` outcome carrying `attempts = maxAttempts`. -/
theorem contLoopFrom_never_detects (scanRes : Nat → List RawResult)
    (hnull : ∀ k, scanRes k = []) (maxAttempts : Nat) :
    ∀ d attempt scans, maxAttempts + 1 - attempt = d →
      attempt ≤ maxAttempts →
      contLoopFrom scanRes maxAttempts attempt scans =
        { success := false, code := some "MAX_ATTEMPTS_REACHED",
          attempts := maxAttempts,
          scansPerformed := scans + (maxAttempts - attempt) } := by
  intro d
  induction d with
  | zero =>
    intro attempt scans hd hle
    exact absurd hle (by omega)
  | succ m ih =>
    intro attempt scans hd hle
    unfold contLoopFrom
    by_cases hgt : attempt + 1 > maxAttempts
    · rw [if_pos hgt]
      have ha : attempt = maxAttempts := by omega
      subst ha
      simp
    · rw [if_neg hgt, hnull (attempt + 1)]
      simp only [List.length_nil]
      rw [if_neg (lt_irrefl 0),
        ih (attempt + 1) (scans + 1) (by omega) (by omega),
        show scans + 1 + (maxAttempts - (attempt + 1)) =
          scans + (maxAttempts - attempt) from by omega]

/-- C4: for every continuous scan with `maxAttempts = n` (`n ≥ 1`) and an
underlying scanner that never yields a detection, the fallback loop
terminates after exactly `n` scan attempts and returns the
`MAX_ATTEMPTS_REACHED` outcome carrying `attempts = n`. -/
theorem continuous_max_attempts_reached (scanRes : Nat → List RawResult)
    (n : Nat) (hn : 1 ≤ n) (hnull : ∀ k, scanRes k = []) :
    scanContinuousFallback scanRes n =
      { success := false, code := some "MAX_ATTEMPTS_REACHED",
        attempts := n, scansPerformed := n } := by
  have h := contLoopFrom_never_detects scanRes hnull n (n + 1) 0 0
    (by omega) (by omega)
  simpa using h

/-- Witness for C4 with `maxAttempts = 3`. -/
theorem continuous_max_attempts_reached_witness :
    1 ≤ 3 ∧
      scanContinuousFallback (fun _ => []) 3 =
        { success := false, code := some "MAX_ATTEMPTS_REACHED",
          attempts := 3, scansPerformed := 3 } :=
  ⟨by norm_num,
    continuous_max_attempts_reached (fun _ => []) 3 (by norm_num)
      (fun _ => rfl)⟩

/-- C5, code evaluated at the failing input: with the default interval of
2500ms the loop computes a reduced per-attempt timeout of
`min(2500 * 0.8, 5000) = 2000` ms, yet the options it passes to the
underlying scan carry no timeout at all, so an attempt whose underlying
scan settles after 10000ms lasts 10000ms --- it is neither bounded by the
computed 2000ms value nor kept below the 2500ms interval. -/
theorem continuous_attempt_timeout_never_applied :
    individualTimeout 2500 = 2000 ∧
      (continuousAttemptOptions ["qr_code", "pdf417_enhanced", "pdf417"]
        "first" true).timeoutMs = none ∧
      continuousAttemptDuration 10000 = 10000 ∧
      ¬(continuousAttemptDuration 10000 ≤ 2500) := by
  refine ⟨?_, rfl, rfl, by norm_num [continuousAttemptDuration]⟩
  norm_num [individualTimeout]

/-- C8: for every interval wait of the continuous loop, a signal that
becomes (or already is) aborted `t` ms into the wait with `t < interval`
clears the pending timer and rejects the wait at instant `t` --- strictly
before the interval would have elapsed --- and the loop's catch block turns
that rejection into a cancelled outcome. -/
theorem interval_wait_abort_prompt (interval t : Nat) (hlt : t < interval) :
    (intervalWait interval (some t)).rejected = true ∧
      (intervalWait interval (some t)).settleAt = t ∧
      (intervalWait interval (some t)).settleAt < interval ∧
      (intervalWait interval (some t)).timerCleared = true ∧
      (continuousCatch ⟨"Error", (intervalWait interval (some t)).errMessage⟩
          false).cancelled = true ∧
      (continuousCatch ⟨"Error", (intervalWait interval (some t)).errMessage⟩
          false).success = false := by
  simp only [intervalWait]
  rw [if_pos hlt]
  refine ⟨rfl, rfl, hlt, rfl, ?_, ?_⟩ <;>
  · dsimp only
    unfold continuousCatch
    rw [if_neg (by decide), if_pos (by decide)]

/-- Witness for C8: abort 100ms into a 2500ms interval wait. -/
theorem interval_wait_abort_prompt_witness :
    (intervalWait 2500 (some 100)).rejected = true ∧
      (intervalWait 2500 (some 100)).settleAt = 100 ∧
      (intervalWait 2500 (some 100)).settleAt < 2500 ∧
      (intervalWait 2500 (some 100)).timerCleared = true ∧
      (continuousCatch ⟨"Error", (intervalWait 2500 (some 100)).errMessage⟩
          false).cancelled = true ∧
      (continuousCatch ⟨"Error", (intervalWait 2500 (some 100)).errMessage⟩
          false).success = false :=
  interval_wait_abort_prompt 2500 100 (by norm_num)

/-- C9: whenever an `AbortError` reaches the catch block of `scanOnce`,
`scanContinuous` or `scanFile` after a successful result was already
captured (`scanSucceeded = true`), the abort is treated as benign and the
call returns a success outcome. -/
theorem abort_after_success_benign (e : JsError)
    (hname : e.name = "AbortError") :
    (scanOnceCatch e true).success = true ∧
      (continuousCatch e true).success = true ∧
      (fileCatch e true).success = true := by
  have hc : (e.name == "AbortError" && true) = true := by
    rw [hname]
    decide
  refine ⟨?_, ?_, ?_⟩
  · unfold scanOnceCatch
    rw [if_pos hc]
  · unfold continuousCatch
    rw [if_pos hc]
  · unfold fileCatch
    rw [if_pos hc]

/-- Witness for C9 at a concrete abort error. -/
theorem abort_after_success_benign_witness :
    (scanOnceCatch ⟨"AbortError", "The user aborted a request."⟩
        true).success = true ∧
      (continuousCatch ⟨"AbortError", "The user aborted a request."⟩
        true).success = true ∧
      (fileCatch ⟨"AbortError", "The user aborted a request."⟩
        true).success = true :=
  abort_after_success_benign ⟨"AbortError", "The user aborted a request."⟩
    rfl

/-- C7, counterexample: the claim covers the invalid-container case, but
calling `start` with a null container throws synchronously (before the try
block): no `stop()` runs and no structured failure object is produced. -/
theorem start_invalid_container_throws :
    (startRun "barcode" ⟨none, none, false⟩ (.ok (1, 2)) .nullC).thrown =
        some ⟨"Error",
          "Container element is required for CameraScanner.start()"⟩ ∧
      (startRun "barcode" ⟨none, none, false⟩ (.ok (1, 2)) .nullC).ret =
        none ∧
      (startRun "barcode" ⟨none, none, false⟩ (.ok (1, 2))
        .nullC).stopCalled = false :=
  ⟨rfl, rfl, rfl⟩

/-- C7 as amended: for every `start(container)` invocation with a valid
container and no camera already active whose stream/surface acquisition
fails, `stop()` is performed (the session ends released) and a structured
failure object (`success: false`, no exception) is returned, carrying a
classified code that is `CAMERA_PERMISSION_DENIED`, `NO_CAMERA_FOUND`,
`CAMERA_TIMEOUT` or `INVALID_CONTAINER` when the error matches one of those
classes and the generic `CAMERA_START_ERROR` otherwise; an invalid
container instead raises a synchronous exception before any acquisition. -/
theorem start_acquisition_failure_structured (scanType : String)
    (st : CamState) (e : JsError)
    (hactive : (st.stream.isSome && st.video.isSome) = false) :
    (startRun scanType st (.error e) .validElement).thrown = none ∧
      (startRun scanType st (.error e) .validElement).ret =
        some
          { success := false, scanType := scanType, message := none,
            code := some (classifyStartError e) } ∧
      (startRun scanType st (.error e) .validElement).stopCalled = true ∧
      (startRun scanType st (.error e) .validElement).state =
        { stream := none, video := none, isScanning := false } ∧
      classifyStartError e ∈
        ["CAMERA_PERMISSION_DENIED", "NO_CAMERA_FOUND", "CAMERA_TIMEOUT",
          "INVALID_CONTAINER", "CAMERA_START_ERROR"] := by
  have hcond : ¬((st.stream.isSome && st.video.isSome) = true) := by
    rw [hactive]
    decide
  unfold startRun
  rw [if_neg hcond]
  refine ⟨rfl, rfl, rfl, rfl, ?_⟩
  unfold classifyStartError
  split
  · decide
  split
  · decide
  split
  · decide
  split
  · decide
  decide

/-- Witness for C7's amended theorem: permission denied on a fresh
session. -/
theorem start_acquisition_failure_structured_witness :
    ((⟨none, none, false⟩ : CamState).stream.isSome &&
        (⟨none, none, false⟩ : CamState).video.isSome) = false ∧
      (startRun "barcode" ⟨none, none, false⟩
        (.error ⟨"NotAllowedError", "Permission denied"⟩)
        .validElement).thrown = none ∧
      (startRun "barcode" ⟨none, none, false⟩
        (.error ⟨"NotAllowedError", "Permission denied"⟩)
        .validElement).ret =
        some
          { success := false, scanType := "barcode", message := none,
            code := some (classifyStartError
              ⟨"NotAllowedError", "Permission denied"⟩) } ∧
      (startRun "barcode" ⟨none, none, false⟩
        (.error ⟨"NotAllowedError", "Permission denied"⟩)
        .validElement).stopCalled = true ∧
      (startRun "barcode" ⟨none, none, false⟩
        (.error ⟨"NotAllowedError", "Permission denied"⟩)
        .validElement).state =
        { stream := none, video := none, isScanning := false } ∧
      classifyStartError ⟨"NotAllowedError", "Permission denied"⟩ ∈
        ["CAMERA_PERMISSION_DENIED", "NO_CAMERA_FOUND", "CAMERA_TIMEOUT",
          "INVALID_CONTAINER", "CAMERA_START_ERROR"] :=
  ⟨by decide,
    start_acquisition_failure_structured "barcode" ⟨none, none, false⟩
      ⟨"NotAllowedError", "Permission denied"⟩ (by decide)⟩

/-- C10: for every session whose stream and video element are both present,
calling `start` again (on either class) with a valid container returns the
'Camera already active' success outcome without re-acquiring the camera
(the acquisition settlement is irrelevant), without clearing the container,
without calling `stop()`, and with the whole session state unchanged. -/
theorem start_already_active_noop (scanType : String) (st : CamState)
    (acq acq2 : Except JsError (Nat × Nat))
    (hs : st.stream.isSome = true) (hv : st.video.isSome = true) :
    startRun scanType st acq .validElement =
      { thrown := none,
        ret := some
          { success := true, scanType := scanType,
            message := some "Camera already active", code := none },
        state := st, containerCleared := false, stopCalled := false } ∧
      start2Run scanType st acq2 .validElement =
        { thrown := none,
          ret := some
            { success := true, scanType := scanType,
              message := some "Camera already active", code := none },
          state := st, containerCleared := false, stopCalled := false } := by
  have hcond : (st.stream.isSome && st.video.isSome) = true := by
    rw [hs, hv]
    rfl
  constructor
  · unfold startRun
    rw [if_pos hcond]
  · unfold start2Run
    rw [if_pos hcond]

/-- Witness for C10 on a concrete already-active session, with one
acquisition settlement succeeding and the other failing (neither is
consulted). -/
theorem start_already_active_noop_witness :
    (⟨some 1, some 2, false⟩ : CamState).stream.isSome = true ∧
      startRun "barcode" ⟨some 1, some 2, false⟩ (.ok (3, 4))
          .validElement =
        { thrown := none,
          ret := some
            { success := true, scanType := "barcode",
              message := some "Camera already active", code := none },
          state := ⟨some 1, some 2, false⟩, containerCleared := false,
          stopCalled := false } ∧
      start2Run "barcode" ⟨some 1, some 2, false⟩
          (.error ⟨"NotFoundError", "no device"⟩) .validElement =
        { thrown := none,
          ret := some
            { success := true, scanType := "barcode",
              message := some "Camera already active", code := none },
          state := ⟨some 1, some 2, false⟩, containerCleared := false,
          stopCalled := false } :=
  ⟨rfl,
    start_already_active_noop "barcode" ⟨some 1, some 2, false⟩
      (.ok (3, 4)) (.error ⟨"NotFoundError", "no device"⟩) rfl rfl⟩

/-- The `success` flag of a per-file entry records exactly whether that
file's scan settlement succeeded. -/
theorem processOne_success (f : JsFile) (s : FileSettle) :
    (processOne f s).success = s.succeeds := by
  cases s with
  | resolved rs =>
    simp only [processOne, FileSettle.succeeds]
    by_cases h : 0 < rs.length
    · rw [if_pos h]
      simp [h]
    · rw [if_neg h]
      simp [h]
  | rejected e => rfl

/-- Every per-file entry preserves the original file name. -/
theorem processOne_fileName (f : JsFile) (s : FileSettle) :
    (processOne f s).fileName = f.name := by
  cases s with
  | resolved rs =>
    simp only [processOne]
    split <;> rfl
  | rejected e => rfl

/-- C6, counterexample: the claim has a processAll batch containing an
unsupported-type file return a summary counting it among the failures, but
the upfront MIME validation makes the whole call throw 'Unsupported file
types' before any file is processed -- even though every file in the batch
would scan successfully. -/
theorem scanFile_unsupported_type_aborts_batch :
    scanFileProcessAll
      [⟨"doc1.png", 100, "image/png"⟩, ⟨"doc2.pdf", 90, "application/pdf"⟩,
        ⟨"doc3.jpg", 80, "image/jpeg"⟩]
      (fun _ => .resolved [⟨"qr_code"⟩]) =
      .error ⟨"Error", "Unsupported file types: doc2.pdf"⟩ := by
  rfl

/-- C6 as amended: a processAll batch in which some file fails the MIME
prefilter throws upfront, before any file is processed; for every
non-empty batch in which all files pass the prefilter, the call returns a
summary whose `successfulFiles` is the number of files whose scan yields
detections and whose `failedFiles` is the number of files whose scan
yields none or fails, with per-file entries preserving the original file
names -- one file's scan failure never aborts the batch. -/
theorem scanFile_processAll_summary (files : List JsFile)
    (settle : JsFile → FileSettle)
    (hne : 0 < files.length)
    (hok : ∀ f ∈ files, fileTypeSupported f = true) :
    scanFileProcessAll files settle =
      .ok
        { success :=
            decide (0 < (files.filter fun f => (settle f).succeeds).length),
          results := files.map fun f => processOne f (settle f),
          summary :=
            { totalFiles := files.length,
              processedFiles := files.length,
              successfulFiles :=
                (files.filter fun f => (settle f).succeeds).length,
              failedFiles :=
                (files.filter fun f => !(settle f).succeeds).length } } ∧
      ((files.map fun f => processOne f (settle f)).map
        FileEntry.fileName) = files.map JsFile.name := by
  have hinv : invalidFiles files = [] := by
    unfold invalidFiles
    refine List.filter_eq_nil_iff.mpr fun f hf => ?_
    simp [hok f hf]
  have hcount : ((files.map fun f => processOne f (settle f)).filter
      fun r => r.success) =
      (files.filter fun f => (settle f).succeeds).map
        fun f => processOne f (settle f) := by
    rw [List.filter_map]
    congr 1
    refine List.filter_congr fun x _ => ?_
    simp only [Function.comp_apply]
    exact processOne_success x (settle x)
  have hlen : ((files.map fun f => processOne f (settle f)).filter
      fun r => r.success).length =
      (files.filter fun f => (settle f).succeeds).length := by
    rw [hcount, List.length_map]
  have hsplit : files.length =
      (files.filter fun f => (settle f).succeeds).length +
        (files.filter fun f => !(settle f).succeeds).length := by
    simpa using
      List.length_eq_length_filter_add (l := files)
        fun f => (settle f).succeeds
  constructor
  · unfold scanFileProcessAll
    rw [if_neg (by omega), hinv]
    simp only [List.length_nil]
    rw [if_neg (lt_irrefl 0), hlen, List.length_map,
      show files.length -
          (files.filter fun f => (settle f).succeeds).length =
          (files.filter fun f => !(settle f).succeeds).length from by omega]
  · rw [List.map_map]
    congr 1
    funext x
    exact processOne_fileName x (settle x)

/-- Witness for C6's amended theorem on the concrete example batch: one
success, one empty result, one per-file timeout. -/
theorem scanFile_processAll_summary_witness :
    0 < exampleBatch.length ∧
      scanFileProcessAll exampleBatch exampleSettle =
        .ok
          { success := decide (0 <
              (exampleBatch.filter
                fun f => (exampleSettle f).succeeds).length),
            results :=
              exampleBatch.map fun f => processOne f (exampleSettle f),
            summary :=
              { totalFiles := exampleBatch.length,
                processedFiles := exampleBatch.length,
                successfulFiles :=
                  (exampleBatch.filter
                    fun f => (exampleSettle f).succeeds).length,
                failedFiles :=
                  (exampleBatch.filter
                    fun f => !(exampleSettle f).succeeds).length } } ∧
      ((exampleBatch.map fun f => processOne f (exampleSettle f)).map
        FileEntry.fileName) = exampleBatch.map JsFile.name :=
  ⟨by decide,
    scanFile_processAll_summary exampleBatch exampleSettle (by decide)
      (by decide)⟩

end CameraScannerSpec
